import Mathlib

/-!
# Verification of the wasm-fingerprint statistical timing engine

Shallow embedding, over exact rationals, of the core statistical measurement
and classification functions of the repository:

* `statsOf`, the sample-statistics helper inside `runMemoryTests`
  (src/common.js);
* the adaptive pair sampler loop of `runMemoryTests` (src/common.js);
* the band derivation of `generateFingerprint` and `_safeOverallRatio`
  (src/common.js);
* `_findPerformanceInflection` and `profileWorkerPerformance` (src/common.js);
* the confidence computation of `classifyWASM` (src/common.js);
* `calculateConfidence` and `identifyDevice` (src/device-database.js).

JavaScript floating point numbers are modelled as rationals (`ℚ`); the only
operation that leaves the rationals, `Math.sqrt`, occurs solely inside
*comparisons* (`std / mean > t`, `separation > 2.0`), and those comparisons
are encoded by their exact algebraic equivalents over `ℚ` (squaring, since
`Real.sqrt` is monotone and the compared quantities are nonnegative); each
such encoding is flagged by a comment at the definition.
-/

namespace WasmFp

/-- Ascending sort of a list of rationals, as produced by
`[...arr].sort((a, b) => a - b)` in the source.  (`Array.prototype.sort`
is a stable sort; any stable ascending sort computes the same list, and
insertion sort is used because it reduces inside the kernel.) -/
def sortQ (l : List ℚ) : List ℚ := l.insertionSort (· ≤ ·)

/-- Arithmetic mean, `arr.reduce((a, b) => a + b, 0) / arr.length`.
(JS yields `NaN` on an empty array; in `ℚ`, `0 / 0 = 0`.) -/
def meanQ (l : List ℚ) : ℚ := l.sum / l.length

/-- Median of an already nonempty list as computed by `statsOf` in
`runMemoryTests` (src/common.js): sort ascending, take the middle element,
or the average of the two middle elements when the count is even. -/
def medianQ (l : List ℚ) : ℚ :=
  let sorted := sortQ l
  let n := sorted.length
  if n % 2 = 1 then sorted.getD ((n - 1) / 2) 0
  else (sorted.getD (n / 2 - 1) 0 + sorted.getD (n / 2) 0) / 2

/-- The trim cut count of `statsOf`: `Math.max(1, Math.floor(n * 0.15))`. -/
def trimCut (n : ℕ) : ℕ := max 1 (3 * n / 20)

/-- The trimmed slice of `statsOf`:
`sorted.slice(cut, Math.max(cut + 1, n - cut))`.
`Array.prototype.slice(start, end)` returns the elements with indices in
`[start, min end n)`, which is `(sorted.drop start).take (end - start)`. -/
def trimmedOf (l : List ℚ) : List ℚ :=
  let sorted := sortQ l
  let n := sorted.length
  let cut := trimCut n
  (sorted.drop cut).take (max (cut + 1) (n - cut) - cut)

/-- Sample statistics as computed by `statsOf` in `runMemoryTests`
(src/common.js).  `mean` is the trimmed mean, `vari` the sample variance of
the trimmed slice (`/ Math.max(1, trimmed.length - 1)`).  The source stores
`std = Math.sqrt(Math.max(0, variance))` and `rsd = mean > 0 ? std / mean : 1`;
`std` and `rsd` are irrational in general, so the structure keeps `vari` and
the comparison `rsd > t` is provided by `rsdGt` below. -/
structure StatsQ where
  mean : ℚ
  vari : ℚ
  median : ℚ
  n : ℕ
  deriving Repr, DecidableEq

/-- `statsOf` from `runMemoryTests` (src/common.js).  Empty input returns
the sentinel `{mean: 0, std: 0, rsd: 1, median: 0}`.  For the one-element
input the trimmed slice is empty and the JS trimmed mean is `0 / 0 = NaN`;
in `ℚ` that division is `0` (`NaN > 0` and `0 > 0` are both false, so every
comparison the engine performs on the field agrees). -/
def statsOf (l : List ℚ) : StatsQ :=
  if l.length = 0 then { mean := 0, vari := 0, median := 0, n := 0 }
  else
    let trimmed := trimmedOf l
    let mean := meanQ trimmed
    let vari := (trimmed.map (fun x => (x - mean) ^ 2)).sum / ((max 1 (trimmed.length - 1) : ℕ) : ℚ)
    { mean := mean, vari := vari, median := medianQ l, n := l.length }

/-- The comparison `s.rsd > t` where, in the source,
`rsd = mean > 0 ? Math.sqrt(Math.max(0, variance)) / mean : 1`.
Encoded exactly over `ℚ`: for `mean > 0` and `t ≥ 0`,
`√(max 0 vari) / mean > t ↔ max 0 vari > t² · mean²` (square both sides,
both nonnegative); for `t < 0` the left side (a nonnegative number) always
exceeds `t`. -/
def rsdGt (s : StatsQ) (t : ℚ) : Bool :=
  if 0 < s.mean then
    if t < 0 then true else decide (max 0 s.vari > t ^ 2 * s.mean ^ 2)
  else decide ((1 : ℚ) > t)

/-! ## The adaptive pair sampler (`runMemoryTests`, src/common.js)

A probe stands for one of the timed WASM calls
(`_sequential_access_test` / `_random_access_test` wrapped in
`performance.now()` differences).  Since the wall clock is impure, a probe
is modelled as a function of the round index (how many paired rounds were
measured before this one), the payload size in KB, and the iteration
count, returning the elapsed milliseconds. -/

/-- A probe callable: `(round, sizeKB, iterations) ↦ elapsedMs`. -/
abbrev Probe := ℕ → ℕ → ℕ → ℚ

/-- One paired round as recorded by `measurePair` in `runMemoryTests`:
the sequential elapsed time, the random elapsed time, and the iteration
count the pair was measured with (the argument `measurePair` was called
with; recorded here so resource claims can speak about it). -/
structure RoundQ where
  seq : ℚ
  rnd : ℚ
  iters : ℕ
  deriving Repr, DecidableEq

/-- `measurePair(size, iters)` from `runMemoryTests`: invoke the
sequential probe, yield once, invoke the random probe. -/
def measurePair (seqP rndP : Probe) (round size iters : ℕ) : RoundQ :=
  { seq := seqP round size iters, rnd := rndP round size iters, iters := iters }

/-- The per-round paired ratio:
`(rnd > 0 && seq > 0) ? (rnd / seq) : NaN`, with `NaN` represented as
`none` (it is exactly the value the later `isFinite(x) && x > 0` filter
drops). -/
def roundRatio (p : RoundQ) : Option ℚ :=
  if 0 < p.rnd ∧ 0 < p.seq then some (p.rnd / p.seq) else none

/-- The break condition of the growth loop in `runMemoryTests`:
`!tooFast && !tooNoisy && pairs.length >= 5` where
`tooFast = sStats.median < 0.4 || rStats.median < 0.4` and
`tooNoisy = sStats.rsd > targetRsd || rStats.rsd > targetRsd`,
the statistics being taken over the positive entries of the respective
time lists. -/
def stopCond (pairs : List RoundQ) (targetRsd : ℚ) : Bool :=
  let seqTimes := (pairs.map (·.seq)).filter (fun x => 0 < x)
  let rndTimes := (pairs.map (·.rnd)).filter (fun x => 0 < x)
  let sStats := statsOf seqTimes
  let rStats := statsOf rndTimes
  let tooFast := sStats.median < 2/5 || rStats.median < 2/5
  let tooNoisy := rsdGt sStats targetRsd || rsdGt rStats targetRsd
  !tooFast && !tooNoisy && decide (pairs.length ≥ 5)

/-- The hard iteration ceiling (`maxIters = 20000` in `runMemoryTests`). -/
def maxIters : ℕ := 20000

/-- The growth step `iters = Math.min(maxIters, Math.floor(iters * 1.8))`;
`⌊1.8 · i⌋ = 9i / 5` in natural division. -/
def growIters (iters : ℕ) : ℕ := min maxIters (9 * iters / 5)

/-- The `while (guard++ < 8)` growth loop of `runMemoryTests`, for one
payload size.  State: remaining fuel (`8 - guard`), the pairs measured so
far (oldest first), the current iteration count.  Each pass either breaks
on `stopCond` or grows the iteration count and appends one more paired
measurement. -/
def sampleLoop (seqP rndP : Probe) (size : ℕ) (targetRsd : ℚ) :
    ℕ → List RoundQ → ℕ → List RoundQ × ℕ
  | 0, pairs, iters => (pairs, iters)
  | fuel + 1, pairs, iters =>
    if stopCond pairs targetRsd then (pairs, iters)
    else
      let iters' := growIters iters
      sampleLoop seqP rndP size targetRsd fuel
        (pairs ++ [measurePair seqP rndP pairs.length size iters']) iters'

/-- The outcome of `runMemoryTests` for one payload size: the list of
paired rounds, the final iteration count, and the reported ratio — the
median (`sorted[Math.floor(len / 2)]`) of the finite positive per-round
paired ratios, or `none` for the `'Too Fast'` sentinel when no ratio
survived the filter. -/
structure SizeRun where
  pairs : List RoundQ
  iterations : ℕ
  ratio : Option ℚ
  deriving Repr, DecidableEq

/-- The body of the `for (const size of sizes)` loop of `runMemoryTests`:
one initial paired measurement at `baseIterations`, then the growth loop
(at most 8 passes), then the ratio report. -/
def measureSize (seqP rndP : Probe) (size baseIterations : ℕ) (targetRsd : ℚ) : SizeRun :=
  let p0 := measurePair seqP rndP 0 size baseIterations
  let st := sampleLoop seqP rndP size targetRsd 8 [p0] baseIterations
  let ratioSamples := sortQ (st.1.filterMap roundRatio)
  { pairs := st.1
    iterations := st.2
    ratio := ratioSamples.get? (ratioSamples.length / 2) }

/-- `runMemoryTests(sizes, baseIterations, targetRsd)` (src/common.js):
the per-size results, keyed by payload size in KB.  Defaults in the
source: `sizes = [16, 32, 64, 256]`, `baseIterations = 200`,
`targetRsd = 0.07`. -/
def runMemoryTests (seqP rndP : Probe) (sizes : List ℕ) (baseIterations : ℕ)
    (targetRsd : ℚ) : List (ℕ × SizeRun) :=
  sizes.map (fun size => (size, measureSize seqP rndP size baseIterations targetRsd))

/-! ## Band derivation (`generateFingerprint` / `_safeOverallRatio`) -/

/-- `avg` from `generateFingerprint`:
`arr.length ? arr.reduce((a,b)=>a+b,0)/arr.length : null`. -/
def avgQ (l : List ℚ) : Option ℚ :=
  if l.isEmpty then none else some (l.sum / l.length)

/-- A memory profile as consumed by the band derivation: payload size in
KB mapped to the reported ratio (`none` is the `'Too Fast'` sentinel, the
non-numeric value that `typeof v === 'number'` filters drop). -/
abbrev RatioProfile := List (ℕ × Option ℚ)

/-- The ratio table of a `runMemoryTests` result. -/
def profileOf (results : List (ℕ × SizeRun)) : RatioProfile :=
  results.map (fun p => (p.1, p.2.ratio))

/-- `features.mem_ratio_l1_band` from `generateFingerprint`:
`pickRatios(['32KB','48KB','64KB'])`, the average of the ratios of the
sizes 32/48/64 KB that are present and numeric. -/
def bandL1 (profile : RatioProfile) : Option ℚ :=
  avgQ (([32, 48, 64] : List ℕ).filterMap
    (fun k => (profile.lookup k).bind id))

/-- `features.mem_ratio_deep` from `generateFingerprint`:
the average of the numeric ratios of the entries whose size is ≥ 256 KB
(`deepKeys = Object.keys(memoryResults).filter(k => parseInt(k) >= 256)`). -/
def bandDeep (profile : RatioProfile) : Option ℚ :=
  avgQ ((profile.filter (fun p => 256 ≤ p.1)).filterMap (fun p => p.2))

/-- `_safeOverallRatio(memoryResults)` (src/common.js): the average of all
numeric ratios, `null` when none survives the `typeof x === 'number'`
filter. -/
def safeOverallRatio (profile : RatioProfile) : Option ℚ :=
  avgQ (profile.filterMap (fun p => p.2))

/-! ## Worker performance clustering (`_findPerformanceInflection`,
`profileWorkerPerformance`, src/common.js)

Worker results are represented by their `duration` field only (`workerId`
is never read by the analysis).  `JS Math.round / Math.floor / Math.ceil`
are `⌊x + 1/2⌋ / ⌊x⌋ / ⌈x⌉` on rationals. -/

/-- `Math.round` (half away from zero is irrelevant here: JS rounds half
up, i.e. `Math.round(x) = Math.floor(x + 0.5)` for every finite `x`). -/
def jsRound (x : ℚ) : ℤ := ⌊x + 1/2⌋

/-- The adjacent-gap list of `_findPerformanceInflection`:
`gap[i] = results[i].duration / results[i-1].duration` for `i ≥ 1`,
tagged with its index. -/
def gapsOf (l : List ℚ) : List (ℕ × ℚ) :=
  (List.range (l.length - 1)).map (fun i => (i + 1, l.getD (i + 1) 0 / l.getD i 0))

/-- `gaps.sort((a, b) => b.gap - a.gap); const maxGap = gaps[0]` — the sort
is stable, so this is the first entry carrying the maximal gap.  (Junk
value `(0, 1)` for the empty list, which the callers exclude.) -/
def maxGapOf (l : List ℚ) : ℕ × ℚ :=
  match gapsOf l with
  | [] => (0, 1)
  | g :: gs => gs.foldl (fun acc x => if x.2 > acc.2 then x else acc) g

/-- The fast/slow split index chosen by `_findPerformanceInflection` for a
(sorted-ascending) duration list of length ≥ 2: the largest adjacent jump
if it reaches 1.3, else the midpoint; overridden by the median-separator
two-cluster split when that split's slow-mean / fast-mean reaches 1.25. -/
def inflectionIndexOf (l : List ℚ) : ℕ :=
  let maxGap := maxGapOf l
  let significantGap := decide (maxGap.2 ≥ 13/10)
  let base := if significantGap then maxGap.1 else l.length / 2
  let sortedDurations := sortQ l
  let midPoint := sortedDurations.getD (sortedDurations.length / 2) 0
  let fastCluster := l.filter (fun d => d ≤ midPoint)
  let slowCluster := l.filter (fun d => midPoint < d)
  if fastCluster.length ≠ 0 ∧ slowCluster.length ≠ 0 ∧
      meanQ slowCluster / meanQ fastCluster ≥ 5/4 then
    fastCluster.length
  else base

/-- The rounding step of the scaling block of
`_findPerformanceInflection`: round both proportionally scaled counts
(`Math.round`), and when the sum misses `H` repair it by ceiling (resp.
flooring) the count with the larger (resp. smaller) fractional part and
giving the other count the remainder. -/
def adjustCounts (pLen eLen H : ℕ) : ℤ × ℤ :=
  let len : ℚ := (pLen + eLen : ℕ)
  let scaleFactor : ℚ := (H : ℚ) / len
  let rawScaledP : ℚ := pLen * scaleFactor
  let rawScaledE : ℚ := eLen * scaleFactor
  let p0 := jsRound rawScaledP
  let e0 := jsRound rawScaledE
  if p0 + e0 = (H : ℤ) then (p0, e0)
  else
    let pFractional := rawScaledP - ⌊rawScaledP⌋
    let eFractional := rawScaledE - ⌊rawScaledE⌋
    if p0 + e0 < (H : ℤ) then
      if pFractional ≥ eFractional then (⌈rawScaledP⌉, (H : ℤ) - ⌈rawScaledP⌉)
      else ((H : ℤ) - ⌈rawScaledE⌉, ⌈rawScaledE⌉)
    else
      if pFractional ≤ eFractional then (⌊rawScaledP⌋, (H : ℤ) - ⌊rawScaledP⌋)
      else ((H : ℤ) - ⌊rawScaledE⌋, ⌊rawScaledE⌋)

/-- The trailing safety checks of the scaling block: repair a fast count
below 1 (`scaledPCoreCount = 1; scaledECoreCount = H - 1`), then a
negative slow count (`scaledECoreCount = 0; scaledPCoreCount = H`), and
finally force the sum (`scaledECoreCount = H - scaledPCoreCount`). -/
def clampCounts (a : ℤ × ℤ) (H : ℕ) : ℤ × ℤ :=
  let clamped1 := if a.1 < 1 then ((1 : ℤ), (H : ℤ) - 1) else a
  let clamped2 := if clamped1.2 < 0 then ((H : ℤ), (0 : ℤ)) else clamped1
  if clamped2.1 + clamped2.2 ≠ (H : ℤ) then (clamped2.1, (H : ℤ) - clamped2.1)
  else clamped2

/-- The scaling block of `_findPerformanceInflection` that runs when
`results.length > actualHardwareConcurrency`: proportional scaling of the
raw cluster sizes `pLen`/`eLen` down to `H` with largest-fractional-part
rounding repair, then the safety clamps. -/
def scaledCounts (pLen eLen H : ℕ) : ℤ × ℤ :=
  clampCounts (adjustCounts pLen eLen H) H

/-- The known-topology snapping block of `_findPerformanceInflection`
(`actualHardwareConcurrency` 12 → 6+6, 10 → 4+6 or 6+4, 8 → 4+4, each
only when the scaled split is within ±1 of the canonical one). -/
def snapCounts (p e : ℤ) (H : ℕ) : ℤ × ℤ :=
  if H = 12 then
    if 5 ≤ p ∧ p ≤ 7 ∧ 5 ≤ e ∧ e ≤ 7 then
      if |p - 6| ≤ 1 ∧ |e - 6| ≤ 1 then (6, 6) else (p, e)
    else (p, e)
  else if H = 10 then
    if 3 ≤ p ∧ p ≤ 5 ∧ 5 ≤ e ∧ e ≤ 7 then
      if |p - 4| ≤ 1 ∧ |e - 6| ≤ 1 then (4, 6) else (p, e)
    else if 5 ≤ p ∧ p ≤ 7 ∧ 3 ≤ e ∧ e ≤ 5 then
      if |p - 6| ≤ 1 ∧ |e - 4| ≤ 1 then (6, 4) else (p, e)
    else (p, e)
  else if H = 8 then
    if 3 ≤ p ∧ p ≤ 5 ∧ 3 ≤ e ∧ e ≤ 5 then (4, 4) else (p, e)
  else (p, e)

/-- The boost test of the confidence computation:
`(eCoreMean - pCoreMean) / (pCoreStd + eCoreStd + 1e-6) > 2.0` where the
standard deviations are `Math.sqrt` of the population variances `pv`/`ev`.
The denominator is positive, so the test is
`t > 2·(√pv + √ev)` with `t = eMean - pMean - 2e-6`, which (for
`pv, ev ≥ 0`) holds iff `t > 0 ∧ u > 0 ∧ u² > 64·pv·ev` with
`u = t² - 4·pv - 4·ev` — obtained by squaring twice, every squared side
nonnegative.  This keeps the test decidable over `ℚ`. -/
def sepBoost (pMean eMean pv ev : ℚ) : Bool :=
  let t := eMean - pMean - 2 * (1 / 1000000)
  let u := t ^ 2 - 4 * pv - 4 * ev
  decide (0 < t ∧ 0 < u ∧ 64 * pv * ev < u ^ 2)

/-- Population variance (`stdDev` squared) of the helper inside
`_findPerformanceInflection` (divides by `arr.length`). -/
def popVar (l : List ℚ) : ℚ :=
  let m := meanQ l
  (l.map (fun x => (x - m) ^ 2)).sum / l.length

/-- The output of `_findPerformanceInflection` (the fields the analysis
consumers read; `pCoreCount`/`eCoreCount` are the *scaled* counts). -/
structure InflectionQ where
  pCoreCount : ℤ
  eCoreCount : ℤ
  rawPCoreCount : ℕ
  rawECoreCount : ℕ
  performanceGap : ℚ
  confidence : ℚ
  method : String
  inflectionIndex : ℕ
  deriving Repr, DecidableEq

/-- `_findPerformanceInflection(results, hardwareConcurrency)`
(src/common.js), on the duration list of the results (callers pass the
list sorted ascending).  `hc = none` models a missing hardware concurrency
(then `results.length` is used, as in the `||` fallback chain;
`hc = some 0` is falsy in JS and falls back the same way). -/
def findPerformanceInflection (l : List ℚ) (hc : Option ℕ) : InflectionQ :=
  if l.length < 2 then
    { pCoreCount := l.length, eCoreCount := 0, rawPCoreCount := l.length,
      rawECoreCount := 0, performanceGap := 1, confidence := 0,
      method := "insufficient_data", inflectionIndex := 0 }
  else
    let inflectionIndex := inflectionIndexOf l
    let significantGap := decide ((maxGapOf l).2 ≥ 13/10)
    let pCoreResults := l.take inflectionIndex
    let eCoreResults := l.drop inflectionIndex
    let pCoreMean := meanQ pCoreResults
    let eCoreMean := if eCoreResults.length ≠ 0 then meanQ eCoreResults else pCoreMean
    let performanceGap := eCoreMean / pCoreMean
    let actualH := match hc with
      | some h => if h = 0 then l.length else h
      | none => l.length
    let counts :=
      if actualH < l.length then
        scaledCounts pCoreResults.length eCoreResults.length actualH
      else
        let p := min pCoreResults.length actualH
        ((p : ℤ), (min eCoreResults.length (actualH - p) : ℤ))
    let snapped := snapCounts counts.1 counts.2 actualH
    let baseConfidence : ℚ :=
      if performanceGap ≥ 3/2 then 85
      else if performanceGap ≥ 13/10 then 70
      else if performanceGap ≥ 6/5 then 55
      else 40
    let confidence :=
      if eCoreResults.length ≠ 0 ∧
          sepBoost pCoreMean eCoreMean (popVar pCoreResults) (popVar eCoreResults) then
        min 95 (baseConfidence + 10)
      else baseConfidence
    { pCoreCount := snapped.1, eCoreCount := snapped.2,
      rawPCoreCount := pCoreResults.length, rawECoreCount := eCoreResults.length,
      performanceGap := performanceGap, confidence := confidence,
      method := if significantGap then "inflection_point" else "clustering",
      inflectionIndex := inflectionIndex }

/-- The result of `profileWorkerPerformance` (src/common.js): either the
`available: false` record — which carries a failure reason and *no*
fast/slow cluster split — or the `available: true` record with the
cluster analysis. -/
inductive WorkerPerfResult where
  | unavailable (failureReason : String) (hardwareConcurrency : Option ℕ)
  | available (hardwareConcurrency : ℕ) (totalWorkers : ℕ) (analysis : InflectionQ)
  deriving Repr, DecidableEq

/-- `profileWorkerPerformance(maxProbe)` (src/common.js).  Environment
inputs: whether the `Worker` constructor exists, the reported
`navigator.hardwareConcurrency` (`none` when absent or not a number), and
the outcome of each dispatched task (`none` = errored or timed out, the
results the `r.duration !== null && !r.error` filter drops; `some d` = a
completion with duration `d`).  The code dispatches
`min(maxProbe, max(2H, H + 4))` tasks, keeps the valid results, requires
at least 2 of them, sorts them ascending and hands them to
`_findPerformanceInflection`. -/
def profileWorkerPerformance (workerAvailable : Bool) (hc : Option ℕ)
    (maxProbe : ℕ) (taskOutcome : ℕ → Option ℚ) : WorkerPerfResult :=
  if !workerAvailable then .unavailable "Worker API unavailable" hc
  else
    match hc with
    | none => .unavailable "Insufficient cores for P/E core detection" none
    | some h =>
      if h < 2 then .unavailable "Insufficient cores for P/E core detection" (some h)
      else
        let numWorkers := min maxProbe (max (h * 2) (h + 4))
        let validResults := (List.range numWorkers).filterMap taskOutcome
        if validResults.length < 2 then
          .unavailable "Insufficient valid results for analysis" (some h)
        else
          let sorted := sortQ validResults
          .available h validResults.length (findPerformanceInflection sorted (some h))

/-! ## Feature classifier confidence (`classifyWASM`, src/common.js)

`classifyWASM` reads a fingerprint object and threads one mutable
`confidence` variable (initialised to 50) through a cascade of guarded
increments; the embedding reproduces that cascade exactly, in source
order.  Inputs that the JS coerces (`+f.l1_kb || null`,
`typeof x === 'number' && isFinite(x)`) are modelled as `Option ℚ`
holding the post-coercion value (`none` = absent / `NaN` / falsy-`0`
where the source normalises those to `null`). -/

/-- One calibration sub-band (`{min, max, median}` of `calibration.json`;
the source's `?? q25` / `?? q75` fallbacks only matter for files missing
`min`/`max`, which the model's band always carries). -/
structure CalBand where
  bmin : ℚ
  bmax : ℚ
  bmedian : ℚ
  deriving Repr, DecidableEq

/-- One calibration entry `bands[key]` with its optional `l1`, `deep`,
`overall` sub-bands. -/
structure CalEntry where
  l1 : Option CalBand
  deep : Option CalBand
  overall : Option CalBand
  deriving Repr, DecidableEq

/-- `scoreOf(val, band, w)` from the calibration block of `classifyWASM`:
`0` when the band or the value is missing, else
`max(0, 1 - |val - median| / tolerance) * w` with
`tolerance = max(coreWidth * 3, |median| * 0.3, 0.15)` and
`coreWidth = max(1e-6, max - min)`. -/
def scoreOf (val : Option ℚ) (band : Option CalBand) (w : ℚ) : ℚ :=
  match band, val with
  | some b, some v =>
    let coreWidth := max (1/1000000) (b.bmax - b.bmin)
    let tolerance := max (coreWidth * 3) (max (|b.bmedian| * (3/10)) (3/20))
    let diff := |v - b.bmedian|
    max 0 (1 - diff / tolerance) * w
  | _, _ => 0

/-- The calibration score of one entry:
`0.5·l1 + 0.3·deep + 0.2·overall`. -/
def calEntryScore (l1Band deepBand overall : Option ℚ) (e : CalEntry) : ℚ :=
  scoreOf l1Band e.l1 (1/2) + scoreOf deepBand e.deep (3/10) +
    scoreOf overall e.overall (1/5)

/-- `Object.entries(scores).sort((a,b) => b[1]-a[1])[0]` — the stable
descending sort puts the first entry with the maximal score in front. -/
def bestCalScore (scores : List ℚ) : Option ℚ :=
  match scores with
  | [] => none
  | s :: ss => some (ss.foldl (fun acc x => if x > acc then x else acc) s)

/-- The inputs `classifyWASM` reads from the fingerprint (each already
through the source's own coercion, see above).  `memoryResults` is the
ratio table (for `_safeOverallRatio` and the `'4096KB'` lookup),
`strideMs` the `stride_ms` table keyed by stride in bytes. -/
structure ClassifyInput where
  l1kb : Option ℚ
  l2kb : Option ℚ
  l1Band : Option ℚ
  deepBand : Option ℚ
  memoryResults : RatioProfile
  hardwareConcurrency : Option ℚ
  workerSpawnCap : Option ℚ
  simdSupported : Bool
  strideMs : List (ℕ × ℚ)
  calBands : List CalEntry
  deriving Repr

/-- `isBetween(x, a, b)` from `classifyWASM`. -/
def isBetween (x : Option ℚ) (a b : ℚ) : Bool :=
  match x with
  | some v => decide (a ≤ v ∧ v ≤ b)
  | none => false

/-- JS truthiness of a nullable number: `null`, `NaN` and `0` are falsy. -/
def truthyGE (x : Option ℚ) (bound : ℚ) : Bool :=
  match x with
  | some v => decide (v ≠ 0 ∧ bound ≤ v)
  | none => false

/-- The `confidence` value returned by `classifyWASM` (src/common.js),
reproducing its guarded increments in source order: family gate (+10 for
Apple), Apple structural refinements (+10 generation, +5 L2 tier, +5 4MB
ratio, +5 high core count) or the non-Apple +5, the calibration override
`min(95, max(confidence, round(best * 100)))`, the prefetcher bonus
`min(95, confidence + 10)`, the SIMD bonus `min(95, confidence + 3)`, and
the final worker-cap bonus `confidence += 2` — which the source does
*not* clamp. -/
def classifyWASMConfidence (inp : ClassifyInput) : ℚ :=
  let overall := safeOverallRatio inp.memoryResults
  let logicalCores : Option ℤ := inp.hardwareConcurrency.map jsRound
  let workerCap : Option ℤ := inp.workerSpawnCap.map jsRound
  -- family gate
  let isApple :=
    match inp.l1Band, inp.deepBand with
    | some a, some b => decide (a < 8/5 ∧ b < 8/5)
    | _, _ => false
  let c0 : ℚ := 50
  let c1 := if isApple then c0 + 10 else c0
  -- Apple subdivision
  let c2 :=
    if isApple then
      let cA := if isBetween inp.l1kb 180 200 then c1 + 10 else c1
      let cB := if truthyGE inp.l2kb 12000 then cA + 5 else cA
      let ratio4m := (inp.memoryResults.lookup 4096).bind id
      let cC := match ratio4m with
        | some r => if r ≥ 8/5 then cB + 5 else cB
        | none => cB
      match logicalCores with
      | some n => if n ≠ 0 ∧ n ≥ 12 then cC + 5 else cC
      | none => cC
    else
      -- Intel/AMD subdivision: only the `logicalCores >= 16` branch
      -- touches confidence
      match logicalCores with
      | some n => if n ≠ 0 ∧ n ≥ 16 then c1 + 5 else c1
      | none => c1
  -- calibration override
  let c3 :=
    if inp.calBands.isEmpty then c2
    else
      match bestCalScore (inp.calBands.map (calEntryScore inp.l1Band inp.deepBand overall)) with
      | some best => if best > 1/20 then min 95 (max c2 (jsRound (best * 100) : ℚ)) else c2
      | none => c2
  -- prefetcher-efficiency bonus
  let t64 := inp.strideMs.lookup 64
  let t4k := inp.strideMs.lookup 4096
  let c4 :=
    match inp.deepBand, t64, t4k with
    | some d, some a, some b =>
      if a ≠ 0 ∧ 0 < a ∧ b ≠ 0 ∧ 0 < b ∧ (29/20 ≤ d ∧ d ≤ 17/10) ∧
          (3/10 ≤ a / b ∧ a / b ≤ 4/5) then
        min 95 (c3 + 10)
      else c3
    | _, _, _ => c3
  -- SIMD bonus
  let c5 := if inp.simdSupported then min 95 (c4 + 3) else c4
  -- worker-cap bonus (unclamped in the source)
  match workerCap with
  | some w =>
    if w ≠ 0 ∧ w ≥ 12 then
      (if logicalCores.getD 0 = 0 ∧ w ≥ 12 then c5 + 2 else c5)
    else c5
  | none => c5

/-! ## Device signature matcher (`calculateConfidence`, `identifyDevice`,
src/device-database.js) -/

/-- `calculateConfidence(matchScore, profileConfidence)`
(src/device-database.js), with the constructor's thresholds
`high = 85`, `medium = 70`. -/
def calculateConfidence (matchScore profileConfidence : ℚ) : ℚ :=
  let scoreConfidence := min matchScore 100
  let finalConfidence := (scoreConfidence + profileConfidence) / 2
  if finalConfidence ≥ 85 then min finalConfidence 95
  else if finalConfidence ≥ 70 then max 60 finalConfidence
  else max 40 (finalConfidence * (85/100))

/-- One device profile as `identifyDevice` consumes it: its label, its
stated base confidence, and the total match score
`calculateMatchScore` produced for the observed feature vector (the
score computation itself aggregates CPU/WebGL/WebGPU sub-scores; for the
ranking logic only the resulting number matters). -/
structure ScoredProfile where
  label : String
  baseConfidence : ℚ
  matchScore : ℚ
  deriving Repr, DecidableEq

/-- A ranked candidate of `identifyDevice`. -/
structure DeviceCandidate where
  label : String
  score : ℚ
  confidence : ℚ
  deriving Repr, DecidableEq

/-- The ranked candidate list of `identifyDevice`
(src/device-database.js): keep the profiles whose match score exceeds 50,
attach `calculateConfidence(score, profile.confidence)`, sort by score
descending (`sort((a, b) => b.score - a.score)`, a stable sort; modelled
by the stable insertion sort). -/
def identifyDeviceCandidates (profiles : List ScoredProfile) : List DeviceCandidate :=
  let candidates := (profiles.filter (fun p => 50 < p.matchScore)).map
    (fun p => { label := p.label, score := p.matchScore,
                confidence := calculateConfidence p.matchScore p.baseConfidence })
  candidates.insertionSort (fun a b => b.score ≤ a.score)

/-- The final result of `identifyDevice`: the best candidate's label and
confidence, or the `"Unknown Device"` / confidence-0 record when no
profile scored above the inclusion threshold. -/
def identifyDevice (profiles : List ScoredProfile) : String × ℚ :=
  match identifyDeviceCandidates profiles with
  | [] => ("Unknown Device", 0)
  | best :: _ => (best.label, best.confidence)

/-! ## Claim C4 — well-definedness of the sample statistics -/

/-- C4 (code bug): on the single-element input `[5]` the symmetric trim of
`statsOf` retains *nothing* — `cut = max(1, ⌊1·0.15⌋) = 1` and
`sorted.slice(1, max(2, 0))` starts past the end of a one-element array —
so in the source `trimmedMean = 0/0 = NaN`, contradicting the claim (and
the spec's "at least 1 element, guarding against trimming everything"). -/
theorem statsOf_singleton_trims_everything :
    trimmedOf [(5 : ℚ)] = [] ∧ trimCut 1 = 1 := by
  constructor
  · with_unfolding_all rfl
  · rfl

/-! ## Claim C2 — confidence bound of the classifier -/

/-- A fingerprint input on which the unclamped final worker-cap bonus of
`classifyWASM` pushes the confidence beyond 95: both band ratios 1.5
(Apple gate, +10), L1 ≈ 190 KB (+10), L2 ≈ 12000 KB (+5), a 4 MB ratio of
1.6 (+5), a calibration entry matched exactly (confidence := 95), the
prefetcher and SIMD bonuses saturating at 95, no finite
`hardware_concurrency`, and a worker spawn cap of 12 (the final,
unclamped `confidence += 2`). -/
def c2FailingInput : ClassifyInput :=
  { l1kb := some 190, l2kb := some 12000,
    l1Band := some (3/2), deepBand := some (3/2),
    memoryResults := [(16, some (7/5)), (4096, some (8/5))],
    hardwareConcurrency := none, workerSpawnCap := some 12,
    simdSupported := true,
    strideMs := [(64, 1), (4096, 2)],
    calBands := [{ l1 := some ⟨7/5, 8/5, 3/2⟩, deep := some ⟨7/5, 8/5, 3/2⟩,
                   overall := some ⟨7/5, 8/5, 3/2⟩ }] }

/-- C2 (code bug): `classifyWASM` returns confidence 97 (> 95) on
`c2FailingInput` — the final worker-cap increment `confidence += 2` in
src/common.js is applied after the last `Math.min(95, ...)` clamp and is
itself unclamped, so the claimed invariant `confidence ≤ 95` fails. -/
theorem classifyWASM_confidence_97 :
    classifyWASMConfidence c2FailingInput = 97 ∧ ¬(97 : ℚ) ≤ 95 := by
  constructor
  · with_unfolding_all rfl
  · norm_num

/-! ## Claim C3 — the adaptive sampler's stop condition -/

/-- Modelled from the spec's words (§4.2 step 2), for comparison with the
source's `stopCond`: stop iff both probes' relative standard deviations
are at or below the target, at least 5 paired rounds have been collected,
and both probes' *trimmed-mean* durations *exceed* the 0.4 ms floor. -/
def specStopCond (pairs : List RoundQ) (targetRsd : ℚ) : Bool :=
  let seqTimes := (pairs.map (·.seq)).filter (fun x => 0 < x)
  let rndTimes := (pairs.map (·.rnd)).filter (fun x => 0 < x)
  let sStats := statsOf seqTimes
  let rStats := statsOf rndTimes
  !(rsdGt sStats targetRsd) && !(rsdGt rStats targetRsd) &&
    decide (pairs.length ≥ 5) &&
    decide (sStats.mean > 2/5) && decide (rStats.mean > 2/5)

/-- A sequential probe whose five rounds take
0.1, 0.393, 0.401, 0.401, 0.401 ms. -/
def c3SeqProbe : Probe := fun round _ _ =>
  [1/10, 393/1000, 401/1000, 401/1000, 401/1000].getD round (401/1000)

/-- A random probe taking a constant 0.5 ms. -/
def c3RndProbe : Probe := fun _ _ _ => 1/2

/-- The sampler run on the two probes above (size 16 KB, base 200
iterations, target RSD 0.07). -/
def c3Run : SizeRun := measureSize c3SeqProbe c3RndProbe 16 200 (7/100)

/-- C3 (counterexample): the run `c3Run` stops growing after 5 paired
rounds (its final state satisfies the code's break condition `stopCond`),
yet the sequential probe's trimmed mean is 239/600 ≈ 0.3983 ms — *not*
above the 0.4 ms floor — so the claim's third stop condition (both
trimmed means exceed 0.4 ms) is false at that stop: the source gates on
the *median* (0.401 ≥ 0.4 here), not the trimmed mean. -/
theorem stopCond_not_trimmedMean_gated :
    c3Run.pairs.length = 5 ∧ stopCond c3Run.pairs (7/100) = true ∧
      specStopCond c3Run.pairs (7/100) = false ∧
      (statsOf ((c3Run.pairs.map (·.seq)).filter (fun x => 0 < x))).mean = 239/600 := by
  refine ⟨?_, ?_, ?_, ?_⟩ <;> with_unfolding_all rfl

/-- The code's break condition, spelled out: both medians at or above the
0.4 ms floor, both RSD comparisons non-noisy, at least 5 paired rounds. -/
theorem stopCond_iff (pairs : List RoundQ) (t : ℚ) :
    stopCond pairs t = true ↔
      (2/5 ≤ (statsOf ((pairs.map (·.seq)).filter (fun x => 0 < x))).median ∧
       2/5 ≤ (statsOf ((pairs.map (·.rnd)).filter (fun x => 0 < x))).median) ∧
      (rsdGt (statsOf ((pairs.map (·.seq)).filter (fun x => 0 < x))) t = false ∧
       rsdGt (statsOf ((pairs.map (·.rnd)).filter (fun x => 0 < x))) t = false) ∧
      5 ≤ pairs.length := by
  simp only [stopCond, Bool.and_eq_true, Bool.not_eq_true', Bool.or_eq_false_iff,
    decide_eq_true_eq, decide_eq_false_iff_not, not_lt, ge_iff_le]
  tauto

/-- The growth loop never shrinks the collected pair list. -/
theorem sampleLoop_length_le_length (seqP rndP : Probe) (size : ℕ) (t : ℚ) :
    ∀ fuel pairs iters,
      pairs.length ≤ (sampleLoop seqP rndP size t fuel pairs iters).1.length := by
  intro fuel
  induction fuel with
  | zero => intro pairs iters; exact Nat.le_refl _
  | succ n ih =>
    intro pairs iters
    rw [sampleLoop]
    split
    · exact Nat.le_refl _
    · calc pairs.length
          ≤ (pairs ++ [measurePair seqP rndP pairs.length size (growIters iters)]).length := by
            simp
        _ ≤ _ := ih _ _

/-- Each pass of the growth loop adds at most one pair. -/
theorem sampleLoop_length_le (seqP rndP : Probe) (size : ℕ) (t : ℚ) :
    ∀ fuel pairs iters,
      (sampleLoop seqP rndP size t fuel pairs iters).1.length ≤ pairs.length + fuel := by
  intro fuel
  induction fuel with
  | zero => intro pairs iters; simp [sampleLoop]
  | succ n ih =>
    intro pairs iters
    rw [sampleLoop]
    split
    · dsimp only; omega
    · dsimp only
      have h := ih (pairs ++ [measurePair seqP rndP pairs.length size (growIters iters)])
        (growIters iters)
      simp only [List.length_append, List.length_singleton] at h
      omega

/-- Every pair the growth loop appends was measured with at most
`maxIters` iterations (the `Math.min(maxIters, ...)` cap). -/
theorem sampleLoop_iters_le (seqP rndP : Probe) (size : ℕ) (t : ℚ) :
    ∀ fuel pairs iters, (∀ r ∈ pairs, r.iters ≤ maxIters) →
      ∀ r ∈ (sampleLoop seqP rndP size t fuel pairs iters).1, r.iters ≤ maxIters := by
  intro fuel
  induction fuel with
  | zero => intro pairs iters h; simpa [sampleLoop] using h
  | succ n ih =>
    intro pairs iters h
    rw [sampleLoop]
    split
    · exact h
    · refine ih _ _ ?_
      intro r hr
      rcases List.mem_append.1 hr with hr | hr
      · exact h r hr
      · rcases List.mem_singleton.1 hr with rfl
        exact Nat.min_le_left _ _

/-! ## Claim C5 — termination and resource bounds of the sampler -/

/-- C5: for every pair of probe callables (however noisy), every payload
size and every base iteration count not above the cap, one `measureSize`
run collects at most 9 paired rounds (1 initial + 8 growth passes), never
uses more than `maxIters = 20000` iterations in any round, and reports
either a finite ratio or the `'Too Fast'` sentinel (`none`). -/
theorem measureSize_bounded (seqP rndP : Probe) (size base : ℕ) (t : ℚ)
    (hbase : base ≤ maxIters) :
    (measureSize seqP rndP size base t).pairs.length ≤ 9 ∧
    (∀ r ∈ (measureSize seqP rndP size base t).pairs, r.iters ≤ maxIters) ∧
    ((measureSize seqP rndP size base t).ratio = none ∨
      ∃ q, (measureSize seqP rndP size base t).ratio = some q) := by
  refine ⟨?_, ?_, ?_⟩
  · have h := sampleLoop_length_le seqP rndP size t 8
      [measurePair seqP rndP 0 size base] base
    simpa [measureSize] using h
  · intro r hr
    refine sampleLoop_iters_le seqP rndP size t 8
      [measurePair seqP rndP 0 size base] base ?_ r ?_
    · intro r' hr'
      rcases List.mem_singleton.1 hr' with rfl
      exact hbase
    · simpa [measureSize] using hr
  · cases h : (measureSize seqP rndP size base t).ratio with
    | none => exact Or.inl rfl
    | some q => exact Or.inr ⟨q, rfl⟩

/-- Witness for C5 at the constant probe pair (10 ms, 12 ms), size 16 KB,
base 200 iterations, target RSD 0.07. -/
theorem measureSize_bounded_witness :
    200 ≤ maxIters ∧
    ((measureSize (fun _ _ _ => 10) (fun _ _ _ => 12) 16 200 (7/100)).pairs.length ≤ 9 ∧
    (∀ r ∈ (measureSize (fun _ _ _ => 10) (fun _ _ _ => 12) 16 200 (7/100)).pairs,
        r.iters ≤ maxIters) ∧
    ((measureSize (fun _ _ _ => 10) (fun _ _ _ => 12) 16 200 (7/100)).ratio = none ∨
      ∃ q, (measureSize (fun _ _ _ => 10) (fun _ _ _ => 12) 16 200 (7/100)).ratio = some q)) :=
  ⟨by decide, measureSize_bounded _ _ 16 200 (7/100) (by decide)⟩

/-! ## Claim C3 (amended) — what the loop's stop condition actually is -/

/-- C3 (amended): the growth loop stops growing the workload (leaves its
pair list unchanged while fuel remains) exactly when both probes' RSD
comparisons are at or below the target, at least 5 paired rounds have
been collected, and both probes' *median* durations are at or above the
0.4 ms floor — the medians, not the trimmed means, and "at or above",
not strictly above. -/
theorem sampleLoop_stop_characterisation (seqP rndP : Probe) (size : ℕ) (t : ℚ)
    (fuel : ℕ) (pairs : List RoundQ) (iters : ℕ) :
    (sampleLoop seqP rndP size t (fuel + 1) pairs iters).1 = pairs ↔
      (2/5 ≤ (statsOf ((pairs.map (·.seq)).filter (fun x => 0 < x))).median ∧
       2/5 ≤ (statsOf ((pairs.map (·.rnd)).filter (fun x => 0 < x))).median) ∧
      (rsdGt (statsOf ((pairs.map (·.seq)).filter (fun x => 0 < x))) t = false ∧
       rsdGt (statsOf ((pairs.map (·.rnd)).filter (fun x => 0 < x))) t = false) ∧
      5 ≤ pairs.length := by
  rw [← stopCond_iff]
  constructor
  · intro h
    by_contra hstop
    have hfalse : stopCond pairs t = false := by
      cases hsc : stopCond pairs t
      · rfl
      · exact absurd hsc hstop
    have hlen := sampleLoop_length_le_length seqP rndP size t fuel
      (pairs ++ [measurePair seqP rndP pairs.length size (growIters iters)])
      (growIters iters)
    rw [sampleLoop, if_neg (by simp [hfalse])] at h
    have : pairs.length < (sampleLoop seqP rndP size t fuel
        (pairs ++ [measurePair seqP rndP pairs.length size (growIters iters)])
        (growIters iters)).1.length := by
      refine Nat.lt_of_lt_of_le ?_ hlen
      simp
    rw [h] at this
    omega
  · intro h
    rw [sampleLoop, if_pos h]

/-! ## Claim C6 — the reported ratio is the median of the paired ratios -/

/-- C6: for every probe pair the reported per-size ratio is the median
element (`sorted[⌊len/2⌋]`) of the sorted finite positive per-round
paired ratios — not a ratio of means or mean of ratios; consequently,
for probes returning constant 10 ms (sequential) and 12 ms (random) at
every call, the profile ratio at each of the sizes 16/32/64/256 KB is
exactly 1.2 = 6/5, and the derived L1-band and deep-band averages are
both exactly 6/5. -/
theorem ratio_is_median_of_paired_ratios :
    (∀ (seqP rndP : Probe) (size base : ℕ) (t : ℚ),
      (measureSize seqP rndP size base t).ratio =
        (sortQ ((measureSize seqP rndP size base t).pairs.filterMap roundRatio)).get?
          ((sortQ ((measureSize seqP rndP size base t).pairs.filterMap roundRatio)).length / 2)) ∧
    profileOf (runMemoryTests (fun _ _ _ => 10) (fun _ _ _ => 12) [16, 32, 64, 256] 200 (7/100)) =
      [(16, some (6/5)), (32, some (6/5)), (64, some (6/5)), (256, some (6/5))] ∧
    bandL1 (profileOf (runMemoryTests (fun _ _ _ => 10) (fun _ _ _ => 12)
      [16, 32, 64, 256] 200 (7/100))) = some (6/5) ∧
    bandDeep (profileOf (runMemoryTests (fun _ _ _ => 10) (fun _ _ _ => 12)
      [16, 32, 64, 256] 200 (7/100))) = some (6/5) := by
  refine ⟨fun seqP rndP size base t => rfl, ?_, ?_, ?_⟩ <;> with_unfolding_all rfl

/-! ## Claim C7 — sentinel ratios never contribute to band averages -/

/-- In a profile all of whose ratios are the sentinel, every key lookup
feeds `none` to the band average. -/
theorem lookup_bind_none_of_all_none (profile : RatioProfile)
    (h : ∀ p ∈ profile, p.2 = none) (k : ℕ) :
    (profile.lookup k).bind (fun o => o) = none := by
  induction profile with
  | nil => rfl
  | cons a t ih =>
    rw [List.lookup]
    cases hk : k == a.1
    · exact ih (fun p hp => h p (List.mem_cons_of_mem a hp))
    · have := h a (List.mem_cons_self a t)
      simp [this]

/-- C7: entries whose ratio is the `'Too Fast'` sentinel are excluded
from the derived averages rather than contributing zero — appending a
sentinel entry leaves the deep-band and overall averages unchanged — and
when every entry is a sentinel the derived L1-band, deep-band and overall
values are the `'no data'` value `none`, never `some 0`. -/
theorem sentinel_ratios_excluded_from_bands (profile : RatioProfile) :
    ((∀ p ∈ profile, p.2 = none) →
      bandL1 profile = none ∧ bandDeep profile = none ∧
        safeOverallRatio profile = none) ∧
    (∀ size : ℕ,
      bandDeep (profile ++ [(size, none)]) = bandDeep profile ∧
      safeOverallRatio (profile ++ [(size, none)]) = safeOverallRatio profile) := by
  constructor
  · intro h
    refine ⟨?_, ?_, ?_⟩
    · have h32 := lookup_bind_none_of_all_none profile h 32
      have h48 := lookup_bind_none_of_all_none profile h 48
      have h64 := lookup_bind_none_of_all_none profile h 64
      simp [bandL1, List.filterMap, avgQ, h32, h48, h64]
    · have : (profile.filter (fun p => 256 ≤ p.1)).filterMap (fun p => p.2) = [] := by
        rw [List.filterMap_eq_nil_iff]
        intro a ha
        exact h a (List.mem_of_mem_filter ha)
      simp [bandDeep, this, avgQ]
    · have : profile.filterMap (fun p : ℕ × Option ℚ => p.2) = [] := by
        rw [List.filterMap_eq_nil_iff]
        intro a ha
        exact h a ha
      simp [safeOverallRatio, this, avgQ]
  · intro size
    constructor
    · by_cases h : 256 ≤ size <;>
        simp [bandDeep, List.filter_append, List.filterMap_append, h]
    · simp [safeOverallRatio, List.filterMap_append]

/-- Witness for C7 at the concrete all-sentinel profile
`[(16, none), (256, none)]` and the appended entry `(512, none)`. -/
theorem sentinel_ratios_excluded_witness :
    (bandL1 [(16, none), (256, none)] = none ∧
      bandDeep [(16, none), (256, none)] = none ∧
      safeOverallRatio [(16, none), (256, none)] = none) ∧
    (bandDeep ([(16, some (6/5))] ++ [(512, none)]) = bandDeep [(16, some (6/5))] ∧
      safeOverallRatio ([(16, some (6/5))] ++ [(512, none)]) =
        safeOverallRatio [(16, some (6/5))]) :=
  ⟨(sentinel_ratios_excluded_from_bands [(16, none), (256, none)]).1 (by simp),
   (sentinel_ratios_excluded_from_bands [(16, some (6/5))]).2 512⟩

/-! ## Claim C8 — degenerate worker-clusterer runs report unavailable -/

/-- C8: whenever `Worker` parallelism is unavailable, or the reported
hardware concurrency is absent or below 2, or fewer than 2 valid
(non-errored, non-timed-out) task results are collected, the worker
clusterer returns the `available: false` record with a nonempty
human-readable reason — a constructor that carries no fast/slow cluster
split. -/
theorem workerPerf_unavailable (wa : Bool) (hc : Option ℕ) (maxProbe : ℕ)
    (outcome : ℕ → Option ℚ)
    (h : wa = false ∨ hc = none ∨
      ∃ n, hc = some n ∧ (n < 2 ∨
        ((List.range (min maxProbe (max (n * 2) (n + 4)))).filterMap outcome).length < 2)) :
    ∃ reason hc', profileWorkerPerformance wa hc maxProbe outcome =
      .unavailable reason hc' ∧ reason ≠ "" := by
  cases wa with
  | false =>
    exact ⟨"Worker API unavailable", hc, by simp [profileWorkerPerformance], by decide⟩
  | true =>
    rcases h with h | h | ⟨n, rfl, h⟩
    · exact absurd h (by simp)
    · subst h
      exact ⟨"Insufficient cores for P/E core detection", none,
        by simp [profileWorkerPerformance], by decide⟩
    · by_cases h2 : n < 2
      · exact ⟨"Insufficient cores for P/E core detection", some n,
          by simp [profileWorkerPerformance, h2], by decide⟩
      · rcases h with h | h
        · exact absurd h h2
        · refine ⟨"Insufficient valid results for analysis", some n, ?_, by decide⟩
          simp only [profileWorkerPerformance, Bool.not_true, Bool.false_eq_true,
            if_false, if_neg h2]
          rw [if_pos h]

/-- Witness for C8: no `Worker` API. -/
theorem workerPerf_unavailable_witness :
    (false = false ∨ (some 8 : Option ℕ) = none ∨
      ∃ n, (some 8 : Option ℕ) = some n ∧ (n < 2 ∨
        ((List.range (min 24 (max (n * 2) (n + 4)))).filterMap
          (fun _ => some (1 : ℚ))).length < 2)) ∧
    ∃ reason hc', profileWorkerPerformance false (some 8) 24 (fun _ => some (1 : ℚ)) =
      .unavailable reason hc' ∧ reason ≠ "" :=
  ⟨Or.inl rfl, workerPerf_unavailable false (some 8) 24 _ (Or.inl rfl)⟩

/-! ## Claims C1 and C9 — scaled cluster counts -/

/-- The safety clamps always leave the two counts summing exactly to the
hardware concurrency (the final check forces the sum). -/
theorem clampCounts_sum (a : ℤ × ℤ) (H : ℕ) :
    (clampCounts a H).1 + (clampCounts a H).2 = H := by
  rcases a with ⟨p, e⟩
  unfold clampCounts
  dsimp only
  split_ifs <;> dsimp only <;> omega

/-- Every branch of the rounding-repair step leaves the two counts
summing exactly to the hardware concurrency: the no-repair branch is
guarded by `p0 + e0 = H` and each repair branch gives the other count the
remainder `H` minus the first. -/
theorem adjustCounts_sum (pLen eLen H : ℕ) :
    (adjustCounts pLen eLen H).1 + (adjustCounts pLen eLen H).2 = H := by
  unfold adjustCounts
  dsimp only
  split_ifs <;> dsimp only <;> omega

/-- On a pair already summing to the hardware concurrency, the safety
clamps leave the fast count at least 1 and the slow count at least 0 (for
at least one hardware core). -/
theorem clampCounts_bounds (a : ℤ × ℤ) (H : ℕ) (hH : 1 ≤ H)
    (hsum : a.1 + a.2 = H) :
    1 ≤ (clampCounts a H).1 ∧ 0 ≤ (clampCounts a H).2 := by
  rcases a with ⟨p, e⟩
  unfold clampCounts
  dsimp only
  dsimp only at hsum
  split_ifs <;> dsimp only <;> omega

/-- Every branch of the proportional-scaling block leaves the two counts
summing exactly to the hardware concurrency. -/
theorem scaledCounts_sum (pLen eLen H : ℕ) :
    (scaledCounts pLen eLen H).1 + (scaledCounts pLen eLen H).2 = H :=
  clampCounts_sum _ _

/-- After the scaling block, the fast count is at least 1 and the slow
count at least 0 (for at least one hardware core). -/
theorem scaledCounts_bounds (pLen eLen H : ℕ) (hH : 1 ≤ H) :
    1 ≤ (scaledCounts pLen eLen H).1 ∧ 0 ≤ (scaledCounts pLen eLen H).2 :=
  clampCounts_bounds _ _ hH (adjustCounts_sum pLen eLen H)

/-- Topology snapping preserves the count sum. -/
theorem snapCounts_sum (p e : ℤ) (H : ℕ) (h : p + e = H) :
    (snapCounts p e H).1 + (snapCounts p e H).2 = H := by
  unfold snapCounts
  split_ifs <;> dsimp only <;> omega

/-- Topology snapping preserves the count bounds. -/
theorem snapCounts_bounds (p e : ℤ) (H : ℕ) (h1 : 1 ≤ p) (h2 : 0 ≤ e) :
    1 ≤ (snapCounts p e H).1 ∧ 0 ≤ (snapCounts p e H).2 := by
  unfold snapCounts
  split_ifs <;> dsimp only <;> omega

/-- Shared reduction: with scaling applied (`H < l.length`, `H ≥ 2`) the
returned scaled counts are the snapped scaled counts, and they sum to
`H`. -/
theorem inflection_counts_sum_aux (l : List ℚ) (H : ℕ) (h2 : 2 ≤ H)
    (hlen : H < l.length) :
    (findPerformanceInflection l (some H)).pCoreCount +
      (findPerformanceInflection l (some H)).eCoreCount = H := by
  have hlen2 : ¬ l.length < 2 := by omega
  have hH0 : H ≠ 0 := by omega
  unfold findPerformanceInflection
  rw [if_neg hlen2]
  simp only [hH0, if_false, if_pos hlen]
  exact snapCounts_sum _ _ _ (scaledCounts_sum _ _ _)

/-- C1: in every worker-clusterer analysis in which scaling was applied
(more valid task results than the reported hardware concurrency `H ≥ 2`),
the returned scaled fast-cluster count plus the scaled slow-cluster count
equals `H` exactly — including after the known-topology snapping branches
for `H ∈ {8, 10, 12}` (`snapCounts` runs on every result and preserves
the sum). -/
theorem cluster_counts_sum (l : List ℚ) (H : ℕ) (h2 : 2 ≤ H)
    (hlen : H < l.length) :
    (findPerformanceInflection l (some H)).pCoreCount +
      (findPerformanceInflection l (some H)).eCoreCount = H :=
  inflection_counts_sum_aux l H h2 hlen

/-- Witness for C1: 16 valid durations (8 × 50 ms, 8 × 90 ms), `H = 8`. -/
theorem cluster_counts_sum_witness :
    2 ≤ 8 ∧ 8 < (List.replicate 8 (50 : ℚ) ++ List.replicate 8 90).length ∧
    (findPerformanceInflection (List.replicate 8 (50 : ℚ) ++ List.replicate 8 90)
        (some 8)).pCoreCount +
      (findPerformanceInflection (List.replicate 8 (50 : ℚ) ++ List.replicate 8 90)
        (some 8)).eCoreCount = 8 :=
  ⟨by omega, by simp,
   cluster_counts_sum (List.replicate 8 (50 : ℚ) ++ List.replicate 8 90) 8
     (by omega) (by simp)⟩

/-- C9: in every worker-clusterer analysis in which scaling was applied,
the returned scaled fast-cluster count is at least 1 and at most `H`, and
the scaled slow-cluster count is at least 0 — the clamping branches of
the scaling block repair a zero fast count or a negative slow count, and
snapping preserves the bounds. -/
theorem cluster_counts_bounds (l : List ℚ) (H : ℕ) (h2 : 2 ≤ H)
    (hlen : H < l.length) :
    1 ≤ (findPerformanceInflection l (some H)).pCoreCount ∧
    (findPerformanceInflection l (some H)).pCoreCount ≤ H ∧
    0 ≤ (findPerformanceInflection l (some H)).eCoreCount := by
  have hlen2 : ¬ l.length < 2 := by omega
  have hH0 : H ≠ 0 := by omega
  have hsum := inflection_counts_sum_aux l H h2 hlen
  unfold findPerformanceInflection
  rw [if_neg hlen2]
  simp only [hH0, if_false, if_pos hlen]
  unfold findPerformanceInflection at hsum
  rw [if_neg hlen2] at hsum
  simp only [hH0, if_false, if_pos hlen] at hsum
  have hb := scaledCounts_bounds (l.take (inflectionIndexOf l)).length
    (l.drop (inflectionIndexOf l)).length H (by omega)
  have hs := snapCounts_bounds (scaledCounts (l.take (inflectionIndexOf l)).length
    (l.drop (inflectionIndexOf l)).length H).1
    (scaledCounts (l.take (inflectionIndexOf l)).length
      (l.drop (inflectionIndexOf l)).length H).2 H hb.1 hb.2
  exact ⟨hs.1, by omega, hs.2⟩

/-- Witness for C9: same durations and hardware concurrency as C1's
witness. -/
theorem cluster_counts_bounds_witness :
    2 ≤ 8 ∧ 8 < (List.replicate 8 (50 : ℚ) ++ List.replicate 8 90).length ∧
    (1 ≤ (findPerformanceInflection (List.replicate 8 (50 : ℚ) ++ List.replicate 8 90)
        (some 8)).pCoreCount ∧
     (findPerformanceInflection (List.replicate 8 (50 : ℚ) ++ List.replicate 8 90)
        (some 8)).pCoreCount ≤ 8 ∧
     0 ≤ (findPerformanceInflection (List.replicate 8 (50 : ℚ) ++ List.replicate 8 90)
        (some 8)).eCoreCount) :=
  ⟨by omega, by simp,
   cluster_counts_bounds (List.replicate 8 (50 : ℚ) ++ List.replicate 8 90) 8
     (by omega) (by simp)⟩

/-! ## Claim C10 — confidence of ranked device candidates -/

/-- `calculateConfidence` maps every score/base pair into `[40, 95]`. -/
theorem calculateConfidence_bounds (s b : ℚ) :
    40 ≤ calculateConfidence s b ∧ calculateConfidence s b ≤ 95 := by
  unfold calculateConfidence
  dsimp only
  split_ifs with h1 h2
  · exact ⟨le_min (by linarith) (by norm_num), min_le_right _ _⟩
  · exact ⟨le_trans (by norm_num) (le_max_left 60 _),
      max_le (by norm_num) (by linarith)⟩
  · exact ⟨le_max_left 40 _, max_le (by norm_num) (by linarith)⟩

/-- C10: every candidate in the ranked list `identifyDevice` builds (every
profile whose match score exceeded the inclusion threshold 50) carries a
confidence in `[40, 95]`, for every combination of match score and
profile base confidence; in particular no listed candidate can carry the
confidence 0 reserved for the `"Unknown Device"` no-candidates result. -/
theorem device_candidates_confidence_bounds (profiles : List ScoredProfile)
    (c : DeviceCandidate) (hc : c ∈ identifyDeviceCandidates profiles) :
    40 ≤ c.confidence ∧ c.confidence ≤ 95 := by
  unfold identifyDeviceCandidates at hc
  dsimp only at hc
  rw [(List.perm_insertionSort _ _).mem_iff] at hc
  rcases List.mem_map.1 hc with ⟨p, hp, rfl⟩
  exact calculateConfidence_bounds _ _

/-- Witness for C10: the single profile (base confidence 80, match score
90) yields the candidate with confidence 85. -/
theorem device_candidates_confidence_witness :
    40 ≤ (⟨"ThinkPad", 90, 85⟩ : DeviceCandidate).confidence ∧
      (⟨"ThinkPad", 90, 85⟩ : DeviceCandidate).confidence ≤ 95 :=
  device_candidates_confidence_bounds [⟨"ThinkPad", 80, 90⟩] ⟨"ThinkPad", 90, 85⟩
    (by with_unfolding_all decide)

end WasmFp
